import Mathlib

/-!
Shallow embedding of the Socialsense core (src/models.py, src/campaign_logic.py,
src/alerting_system.py) and verification of its specification claims.

Modelling conventions:
* Python `datetime` values (always compared after normalization to offset-free
  UTC) are modelled as `Int` instants; wall-clock reads (`datetime.now`,
  `datetime.utcnow`) are threaded through as an explicit `now : Int` argument.
* Python `int` counters (likes, shares, comments, reach) are modelled as `Nat`:
  the data model declares them as counts.  Trend mention counts are modelled as
  `Int` so that the velocity delta `count - prev` is computed exactly as in the
  source.
* Python `float` arithmetic (engagement rates, percentage changes) is modelled
  exactly over `ℚ`; `round(x, 2)` is modelled by `round2` below.  No claim
  exercises a tie of the rounding function, so the tie-breaking rule is
  immaterial here.
* Dynamically-typed arguments that the code type-checks with `isinstance` are
  modelled with the `PyVal` wrapper (`.other` stands for a value of any
  unexpected runtime type); a raised exception would be an `Except.error`
  result, a normal return is `Except.ok`.
* Python `dict`s used as tracker state are modelled as association lists with
  `dictGet` / `dictSet` (first-match lookup, in-place overwrite).
* Alert `alert_id` (a fresh uuid) and display `message` strings are not
  modelled; they are set to `""` by the service constructors.
-/

namespace SocialSense

/-- Python truthiness of an optional string: `None` and `""` are falsy. -/
def pyFalsy : Option String → Bool
  | none => true
  | some s => s = ""

/-- Lowercasing as used by `str.lower()` in the matcher (ASCII-level). -/
def lowerStr (s : String) : String := String.mk (s.data.map Char.toLower)

/-- `needle` is a contiguous prefix of `hay` (character lists). -/
def listPrefixOf : List Char → List Char → Bool
  | [], _ => true
  | _ :: _, [] => false
  | a :: as, b :: bs => a = b && listPrefixOf as bs

/-- `needle` occurs contiguously inside `hay` (character lists); this is the
semantics of Python's `needle in hay` on strings (the empty needle always
occurs). -/
def listInfixOf (needle : List Char) : List Char → Bool
  | [] => needle.isEmpty
  | b :: bs => listPrefixOf needle (b :: bs) || listInfixOf needle bs

/-- Python's substring test `needle in hay`. -/
def strContains (hay needle : String) : Bool := listInfixOf needle.data hay.data

/-- Association-list model of Python `dict` lookup (`d[k]` / `k in d`). -/
def dictGet {β : Type} : List (String × β) → String → Option β
  | [], _ => none
  | (k', v) :: t, k => if k' = k then some v else dictGet t k

/-- Association-list model of Python `dict` assignment `d[k] = v`. -/
def dictSet {β : Type} : List (String × β) → String → β → List (String × β)
  | [], k, v => [(k, v)]
  | (k', v') :: t, k, v => if k' = k then (k, v) :: t else (k', v') :: dictSet t k v

/-- `round(x, 2)` of Python, modelled exactly over `ℚ`. -/
def round2 (q : ℚ) : ℚ := (round (q * 100) : ℚ) / 100

/-- Timestamp representations accepted for `SocialMediaPost.timestamp`
(src/campaign_logic.py lines 51-70): epoch numbers, ISO-8601 strings (which
either parse to an instant or fail), `datetime` values, or anything else
(skipped).  The carried `Int` is the normalized offset-free UTC instant. -/
inductive TsRep where
  | numeric (t : Int)
  | isoParsed (t : Int)
  | isoBad
  | dt (t : Int)
  | invalid
  deriving DecidableEq, Repr

/-- src/models.py `SocialMediaPost`.  `sentiment_label` models the optional
pre-attached `sentiment_label` attribute and `sentiment` the optional
`sentiment` dict (its value is the dict's `label` entry, if any); both are read
only by the sentiment detector. -/
structure SocialMediaPost where
  post_id : String
  account_id : String
  content : Option String
  timestamp : TsRep
  likes : Option Nat
  shares : Option Nat
  comments_count : Option Nat
  reach : Option Nat
  sentiment_label : Option String
  sentiment : Option (Option String)
  deriving DecidableEq, Repr

/-- src/models.py `Campaign` (the fields the core reads or writes). -/
structure Campaign where
  campaign_id : String
  user_id : String
  name : String
  start_date : Option Int
  end_date : Option Int
  tracked_keywords : List String
  tracked_hashtags : List String
  tracked_accounts : List String
  status : String
  total_posts : Nat
  total_likes : Nat
  total_shares : Nat
  total_comments : Nat
  total_reach : Nat
  avg_engagement_rate : ℚ
  associated_post_ids : List String
  deriving DecidableEq, Repr

/-- src/models.py `Alert`. -/
structure Alert where
  alert_id : String
  user_id : String
  message : String
  type : String
  severity : String
  related_entity_id : Option String
  related_entity_type : Option String
  timestamp : Int
  is_read : Bool
  read_at : Option Int
  deriving DecidableEq, Repr

/-- src/models.py `Alert.mark_as_read`: sets `is_read` and stamps `read_at`
with the current time (threaded as `now`). -/
def Alert.mark_as_read (now : Int) (a : Alert) : Alert :=
  { a with is_read := true, read_at := some now }

/-- src/models.py `Campaign._update_status_logic`. -/
def Campaign.update_status_logic (c : Campaign) (now : Int) : Campaign :=
  if (match c.end_date with | some e => decide (e < now) | none => false) then
    { c with status := "Finished" }
  else if (match c.start_date with | some s => decide (s ≤ now) | none => false) then
    { c with status := "Active" }
  else if (match c.start_date with | some s => decide (now < s) | none => false) then
    { c with status := "Planning" }
  else c

/-- src/models.py `Campaign.update_status` with the wall-clock read threaded
through as `now`. -/
def Campaign.update_status (c : Campaign) (now : Int) : Campaign :=
  Campaign.update_status_logic c now

/-- src/models.py `Campaign.update_metrics`.  The empty-input branch mirrors
the source's early `return`: it does NOT call `update_status`.  The non-empty
branch sums each field skipping `None` values, caches the post ids, computes
the engagement rate and finally recomputes the status. -/
def Campaign.update_metrics (c : Campaign) (posts : List SocialMediaPost) (now : Int) :
    Campaign :=
  if posts.isEmpty then
    { c with total_posts := 0, total_likes := 0, total_shares := 0, total_comments := 0,
             total_reach := 0, avg_engagement_rate := 0, associated_post_ids := [] }
  else
    let total_posts : Nat := posts.length
    let total_likes : Nat := (posts.map (fun p => p.likes.getD 0)).sum
    let total_shares : Nat := (posts.map (fun p => p.shares.getD 0)).sum
    let total_comments : Nat := (posts.map (fun p => p.comments_count.getD 0)).sum
    let total_reach : Nat := (posts.map (fun p => p.reach.getD 0)).sum
    let associated_post_ids := posts.map (fun p => p.post_id)
    let total_engagements : ℚ :=
      (total_likes : ℚ) + (total_shares : ℚ) + (total_comments : ℚ)
    let avg : ℚ :=
      if 0 < total_reach then round2 (total_engagements / (total_reach : ℚ) * 100)
      else if 0 < total_posts then round2 (total_engagements / (total_posts : ℚ))
      else 0
    Campaign.update_status_logic
      { c with total_posts := total_posts, total_likes := total_likes,
               total_shares := total_shares, total_comments := total_comments,
               total_reach := total_reach, avg_engagement_rate := avg,
               associated_post_ids := associated_post_ids } now

theorem update_status_logic_avg (c : Campaign) (now : Int) :
    (Campaign.update_status_logic c now).avg_engagement_rate = c.avg_engagement_rate := by
  unfold Campaign.update_status_logic
  split
  · rfl
  · split
    · rfl
    · split <;> rfl

theorem update_status_logic_only_status (c : Campaign) (now : Int) :
    ∃ st, Campaign.update_status_logic c now = { c with status := st } := by
  unfold Campaign.update_status_logic
  split
  · exact ⟨"Finished", rfl⟩
  · split
    · exact ⟨"Active", rfl⟩
    · split
      · exact ⟨"Planning", rfl⟩
      · exact ⟨c.status, rfl⟩

/-! ## src/campaign_logic.py — relevance matcher -/

/-- A dynamically-typed Python argument: either a value of the expected type or
a value of some other runtime type (rejected by `isinstance`). -/
inductive PyVal (α : Type) where
  | val (a : α)
  | other
  deriving DecidableEq, Repr

/-- Timestamp normalization of `get_posts_for_campaign` (lines 51-70): numeric
epochs are converted, ISO strings are parsed (unparseable ones are skipped),
non-datetime leftovers are skipped, and timezone-aware values are made naive.
`none` means the post is skipped. -/
def normalizeTs : TsRep → Option Int
  | .numeric t => some t
  | .isoParsed t => some t
  | .isoBad => none
  | .dt t => some t
  | .invalid => none

/-- Date filter of `get_posts_for_campaign` (lines 73-77): skip when before
`start_date` or after `end_date` (each only when present). -/
def dateEligible (c : Campaign) (t : Int) : Bool :=
  !(match c.start_date with | some s => decide (t < s) | none => false) &&
  !(match c.end_date with | some e => decide (e < t) | none => false)

/-- `post.content.lower() if post.content else ""` (line 81). -/
def postContentLower (p : SocialMediaPost) : String :=
  match p.content with
  | none => ""
  | some s => if s = "" then "" else lowerStr s

/-- Content/account filter of `get_posts_for_campaign` (lines 79-102): tracked
account exact match, else any lowercased keyword as a substring, else any
`"#" + lowercased hashtag` as a substring (each list guarded by Python
truthiness, so empty criteria lists are skipped). -/
def matchesCriteria (c : Campaign) (p : SocialMediaPost) : Bool :=
  let contentLower := postContentLower p
  if !c.tracked_accounts.isEmpty && c.tracked_accounts.contains p.account_id then
    true
  else if !c.tracked_keywords.isEmpty &&
      c.tracked_keywords.any (fun kw => strContains contentLower (lowerStr kw)) then
    true
  else
    !c.tracked_hashtags.isEmpty &&
      c.tracked_hashtags.any (fun h => strContains contentLower ("#" ++ lowerStr h))

/-- One iteration of the matcher loop: a post is kept iff its timestamp
normalizes, passes the date filter, and matches the content/account filter. -/
def postRelevant (c : Campaign) (p : SocialMediaPost) : Bool :=
  match normalizeTs p.timestamp with
  | none => false
  | some t => dateEligible c t && matchesCriteria c p

/-- The matcher loop over the (already type-filtered) post list. -/
def relevantPosts (c : Campaign) (posts : List SocialMediaPost) : List SocialMediaPost :=
  posts.filter (postRelevant c)

/-- src/campaign_logic.py `get_posts_for_campaign`, including its `isinstance`
validation: an invalid campaign or a non-list logs an error and returns `[]`
(a normal return, hence `Except.ok`); non-post elements are filtered out.  The
code never raises, so no branch produces `Except.error`. -/
def get_posts_for_campaign (campaign : PyVal Campaign)
    (all_posts : PyVal (List (PyVal SocialMediaPost))) :
    Except String (List SocialMediaPost) :=
  match campaign with
  | .other => Except.ok []
  | .val c =>
    match all_posts with
    | .other => Except.ok []
    | .val l =>
      let posts := l.filterMap (fun x => match x with | .val p => some p | .other => none)
      Except.ok (relevantPosts c posts)

/-- Unwrapping of a matcher result inside `process_campaigns` (the error case
is unreachable since the matcher never raises). -/
def okPosts : Except String (List SocialMediaPost) → List SocialMediaPost
  | .ok l => l
  | .error _ => []

/-- src/campaign_logic.py `process_campaigns`: validates that the first
argument is a list of campaigns (otherwise logs and returns `[]`), then for
each campaign finds its relevant posts and updates its metrics in place. -/
def process_campaigns (campaign_list : PyVal (List (PyVal Campaign)))
    (all_social_posts : PyVal (List (PyVal SocialMediaPost))) (now : Int) :
    Except String (List Campaign) :=
  match campaign_list with
  | .other => Except.ok []
  | .val l =>
    if l.any (fun x => match x with | .val _ => false | .other => true) then
      Except.ok []
    else
      Except.ok ((l.filterMap (fun x => match x with | .val c => some c | .other => none)).map
        (fun c => c.update_metrics (okPosts (get_posts_for_campaign (.val c) all_social_posts)) now))

/-! ## src/alerting_system.py — alerting service -/

def TREND_VOLUME_THRESHOLD : Int := 100
def TREND_VELOCITY_THRESHOLD : Int := 50
def CAMPAIGN_ENGAGEMENT_DROP_PERCENTAGE : ℚ := -20
def CAMPAIGN_ENGAGEMENT_SPIKE_PERCENTAGE : ℚ := 30
def NEGATIVE_SENTIMENT_THRESHOLD : ℚ := 3 / 5
def NEGATIVE_SENTIMENT_POST_COUNT : Nat := 10

/-- One entry of the `current_trends` argument: `trend_data.get("term")` may be
absent and `trend_data.get("count", 0)` defaults to `0`. -/
structure TrendData where
  term : Option String
  count : Option Int
  deriving DecidableEq, Repr

/-- One value of `AlertingService.seen_trends`. -/
structure TrendObs where
  volume : Int
  timestamp : Int
  deriving DecidableEq, Repr

/-- One value of `AlertingService.previous_campaign_metrics`. -/
structure CampMetrics where
  avg_engagement_rate : ℚ
  total_likes : Nat
  timestamp : Int
  deriving DecidableEq, Repr

/-- src/alerting_system.py `AlertingService` state. -/
structure AlertingService where
  user_id : String
  previous_campaign_metrics : List (String × CampMetrics)
  seen_trends : List (String × TrendObs)
  deriving DecidableEq, Repr

/-- An alert as constructed by the service (`alert_id` is a fresh uuid and
`message` a display string; neither is modelled). -/
def mkServiceAlert (uid ty sev : String) (rid rty : Option String) (now : Int) : Alert :=
  { alert_id := "", user_id := uid, message := "", type := ty, severity := sev,
    related_entity_id := rid, related_entity_type := rty, timestamp := now,
    is_read := false, read_at := none }

/-- Body of the `check_trend_alerts` loop (lines 58-83) for one entry: falsy
terms are skipped; an unseen term alerts (`info`) iff its count reaches the
volume threshold; a seen term alerts (`warning`) iff the increase reaches the
velocity threshold and the count the volume threshold; in both non-skip cases
the observation is set to the latest count. -/
def trendStep (uid : String) (now : Int) (st : List (String × TrendObs)) (d : TrendData) :
    List Alert × List (String × TrendObs) :=
  match d.term with
  | none => ([], st)
  | some term =>
    if term = "" then ([], st)
    else
      let count := d.count.getD 0
      match dictGet st term with
      | none =>
        let alerts :=
          if TREND_VOLUME_THRESHOLD ≤ count then
            [mkServiceAlert uid "new_trend" "info" (some term) (some "trend_term") now]
          else []
        (alerts, dictSet st term ⟨count, now⟩)
      | some obs =>
        let volume_increase := count - obs.volume
        let alerts :=
          if TREND_VELOCITY_THRESHOLD ≤ volume_increase ∧ TREND_VOLUME_THRESHOLD ≤ count then
            [mkServiceAlert uid "trend_velocity_spike" "warning" (some term) (some "trend_term") now]
          else []
        (alerts, dictSet st term ⟨count, now⟩)

/-- The `check_trend_alerts` loop, accumulating alerts in input order. -/
def trendLoop (uid : String) (now : Int) (st : List (String × TrendObs)) :
    List TrendData → List Alert × List (String × TrendObs)
  | [] => ([], st)
  | d :: ds =>
    let r := trendStep uid now st d
    let rest := trendLoop uid now r.2 ds
    (r.1 ++ rest.1, rest.2)

/-- src/alerting_system.py `AlertingService.check_trend_alerts` (the wall-clock
read at the top of the method is threaded as `now`). -/
def check_trend_alerts (svc : AlertingService) (now : Int) (current_trends : List TrendData) :
    List Alert × AlertingService :=
  let r := trendLoop svc.user_id now svc.seen_trends current_trends
  (r.1, { svc with seen_trends := r.2 })

/-- Body of the `check_campaign_performance_alerts` loop (lines 97-137) for one
campaign: non-Active campaigns are skipped; with no prior observation the rate
is recorded and nothing is emitted; otherwise the percentage change decides a
`warning` spike (if ≥ spike threshold) or else a `critical` drop (if ≤ drop
threshold); the observation is updated unconditionally. -/
def campaignPerfStep (uid : String) (now : Int) (st : List (String × CampMetrics))
    (c : Campaign) : List Alert × List (String × CampMetrics) :=
  if c.status = "Active" then
    let current_engagement_rate := c.avg_engagement_rate
    let alerts :=
      match dictGet st c.campaign_id with
      | none => []
      | some prev_metrics =>
        let prev_engagement_rate := prev_metrics.avg_engagement_rate
        let percentage_change : ℚ :=
          if prev_engagement_rate ≠ 0 then
            (current_engagement_rate - prev_engagement_rate) / |prev_engagement_rate| * 100
          else if 0 < current_engagement_rate then
            CAMPAIGN_ENGAGEMENT_SPIKE_PERCENTAGE + 1
          else 0
        if CAMPAIGN_ENGAGEMENT_SPIKE_PERCENTAGE ≤ percentage_change then
          [mkServiceAlert uid "campaign_performance_change" "warning" (some c.campaign_id)
            (some "campaign") now]
        else if percentage_change ≤ CAMPAIGN_ENGAGEMENT_DROP_PERCENTAGE then
          [mkServiceAlert uid "campaign_performance_change" "critical" (some c.campaign_id)
            (some "campaign") now]
        else []
    (alerts, dictSet st c.campaign_id
      ⟨current_engagement_rate, c.total_likes, now⟩)
  else ([], st)

/-- The `check_campaign_performance_alerts` loop. -/
def campaignPerfLoop (uid : String) (now : Int) (st : List (String × CampMetrics)) :
    List Campaign → List Alert × List (String × CampMetrics)
  | [] => ([], st)
  | c :: cs =>
    let r := campaignPerfStep uid now st c
    let rest := campaignPerfLoop uid now r.2 cs
    (r.1 ++ rest.1, rest.2)

/-- src/alerting_system.py `AlertingService.check_campaign_performance_alerts`. -/
def check_campaign_performance_alerts (svc : AlertingService) (now : Int)
    (campaigns : List Campaign) : List Alert × AlertingService :=
  let r := campaignPerfLoop svc.user_id now svc.previous_campaign_metrics campaigns
  (r.1, { svc with previous_campaign_metrics := r.2 })

/-- Sentiment-label resolution of `check_sentiment_alerts` (lines 153-174) for
one post: posts with falsy content never count; otherwise a truthy pre-attached
`sentiment_label` wins, else the `sentiment` dict's label, else the external
classifier (`classify` models `analyze_sentiment(...).get("label")`); the post
counts iff the resolved label equals `"negative"`. -/
def postNegative (classify : String → Option String) (p : SocialMediaPost) : Bool :=
  match p.content with
  | none => false
  | some s =>
    if s = "" then false
    else
      let l1 := p.sentiment_label
      let l2 := if pyFalsy l1 then (match p.sentiment with | some d => d | none => none) else l1
      let l3 := if pyFalsy l2 then classify s else l2
      l3 = some "negative"

/-- src/alerting_system.py `AlertingService.check_sentiment_alerts`.  `ai` is
`none` when `AIAnalyzerService` is unavailable (the method then returns no
alerts); otherwise it is the classifier.  Below the minimum sample size no
alert is emitted; otherwise a single `critical` alert is emitted iff the
negative percentage reaches the threshold (guarded by `negative_post_count >
0`, which the threshold implies). -/
def check_sentiment_alerts (uid : String) (now : Int)
    (ai : Option (String → Option String)) (c : Campaign)
    (campaign_posts : List SocialMediaPost) : List Alert :=
  match ai with
  | none => []
  | some classify =>
    if campaign_posts.isEmpty || campaign_posts.length < NEGATIVE_SENTIMENT_POST_COUNT then []
    else
      let negative_post_count := (campaign_posts.filter (postNegative classify)).length
      if 0 < negative_post_count then
        let negative_percentage : ℚ :=
          (negative_post_count : ℚ) / (campaign_posts.length : ℚ) * 100
        if NEGATIVE_SENTIMENT_THRESHOLD * 100 ≤ negative_percentage then
          [mkServiceAlert uid "negative_sentiment_surge" "critical" (some c.campaign_id)
            (some "campaign") now]
        else []
      else []

/-! ## Concrete fixtures used by counterexamples and witnesses -/

/-- A campaign whose window `[0, 5]` lies entirely before `now = 10`, still in
its initial `Planning` status, with no tracked criteria. -/
def campPlanning : Campaign :=
  { campaign_id := "camp1", user_id := "u1", name := "Past Campaign",
    start_date := some 0, end_date := some 5,
    tracked_keywords := [], tracked_hashtags := [], tracked_accounts := [],
    status := "Planning", total_posts := 0, total_likes := 0, total_shares := 0,
    total_comments := 0, total_reach := 0, avg_engagement_rate := 0,
    associated_post_ids := [] }

/-- A date-eligible post (instant 3) with content and engagement numbers. -/
def post0 : SocialMediaPost :=
  { post_id := "p1", account_id := "twitter:UserA",
    content := some "Check out our #promo event!",
    timestamp := TsRep.dt 3, likes := some 10, shares := some 1,
    comments_count := some 1, reach := some 100,
    sentiment_label := none, sentiment := none }

/-- An alert fresh out of the constructor. -/
def baseAlert : Alert :=
  { alert_id := "alert002", user_id := "u002", message := "Test", type := "general",
    severity := "info", related_entity_id := none, related_entity_type := none,
    timestamp := 0, is_read := false, read_at := none }

/-! ## C1 -/

/-- C1 (counterexample): `update_metrics` with an empty matched-item list does
NOT recompute the status.  For `campPlanning` (window `[0, 5]`, status
`Planning`) at `now = 10`, a status recomputation — which the non-empty branch
performs via `update_status` — yields `Finished`, but the empty call leaves the
status at `Planning`. -/
theorem C1_counterexample :
    (campPlanning.update_metrics [] 10).status = "Planning" ∧
    (campPlanning.update_status 10).status = "Finished" := by
  constructor <;> rfl

/-- C1 (amended): calling the aggregator with an empty matched-item list sets
all metric totals to zero, sets the engagement rate to `0.0` and clears the
associated item ids, but returns immediately WITHOUT recomputing the status:
the campaign keeps its previous status whatever the dates and current time
say. -/
theorem C1_empty_aggregation (c : Campaign) (now : Int) :
    c.update_metrics [] now =
      { c with total_posts := 0, total_likes := 0, total_shares := 0,
               total_comments := 0, total_reach := 0, avg_engagement_rate := 0,
               associated_post_ids := [] } ∧
    (c.update_metrics [] now).status = c.status := by
  exact ⟨rfl, rfl⟩

/-! ## C2 -/

/-- C2 (counterexample): a non-Campaign object handed to
`get_posts_for_campaign`, and a non-list or a list containing a non-Campaign
handed to `process_campaigns`, all return the normal result `[]` — no
exception is raised, so the call does not abort. -/
theorem C2_counterexample :
    get_posts_for_campaign PyVal.other (PyVal.val [PyVal.val post0]) = Except.ok [] ∧
    process_campaigns PyVal.other (PyVal.val [PyVal.val post0]) 0 = Except.ok [] ∧
    process_campaigns (PyVal.val [PyVal.other]) (PyVal.val [PyVal.val post0]) 0
      = Except.ok [] := by
  exact ⟨rfl, rfl, rfl⟩

/-- C2 (amended): an input of the wrong entity type handed to
`get_posts_for_campaign` or `process_campaigns` makes the call log an error and
return an empty list as a normal result; it does not abort (no
invalid-argument exception is raised). -/
theorem C2_invalid_input_returns_empty
    (ps : PyVal (List (PyVal SocialMediaPost))) (now : Int)
    (l : List (PyVal Campaign)) (h : PyVal.other ∈ l) :
    get_posts_for_campaign PyVal.other ps = Except.ok [] ∧
    process_campaigns PyVal.other ps now = Except.ok [] ∧
    process_campaigns (PyVal.val l) ps now = Except.ok [] := by
  refine ⟨rfl, rfl, ?_⟩
  unfold process_campaigns
  have hany : (l.any fun x => match x with | .val _ => false | .other => true) = true :=
    List.any_eq_true.2 ⟨PyVal.other, h, rfl⟩
  simp [hany]

/-- Witness for C2: the amended theorem applied at a concrete invalid input. -/
theorem C2_witness :
    process_campaigns (PyVal.val [PyVal.other]) (PyVal.val [PyVal.val post0]) 0
      = Except.ok [] :=
  (C2_invalid_input_returns_empty (PyVal.val [PyVal.val post0]) 0 [PyVal.other]
    (by simp)).2.2

/-! ## C7 -/

/-- C7: a campaign with empty keyword, hashtag and account criteria matches no
item at all — the matcher returns the empty list for every input, so date
eligibility alone never suffices. -/
theorem C7_no_criteria_no_match (c : Campaign) (ps : List (PyVal SocialMediaPost))
    (hk : c.tracked_keywords = []) (hh : c.tracked_hashtags = [])
    (ha : c.tracked_accounts = []) :
    get_posts_for_campaign (PyVal.val c) (PyVal.val ps) = Except.ok [] := by
  unfold get_posts_for_campaign relevantPosts
  have hrel : ∀ p, postRelevant c p = false := by
    intro p
    unfold postRelevant
    cases hn : normalizeTs p.timestamp with
    | none => rfl
    | some t =>
      have hcrit : matchesCriteria c p = false := by
        unfold matchesCriteria
        simp [hk, hh, ha]
      simp [hcrit]
  simp [List.filter_eq_nil_iff, hrel]

/-- Witness for C7: the no-criteria campaign `campPlanning` matches nothing
even against a date-eligible post. -/
theorem C7_witness :
    get_posts_for_campaign (PyVal.val campPlanning) (PyVal.val [PyVal.val post0])
      = Except.ok [] :=
  C7_no_criteria_no_match campPlanning [PyVal.val post0] rfl rfl rfl

/-! ## C9 -/

/-- C9 (counterexample): `mark_as_read` is not idempotent on the full
observable state: a second call at a later instant overwrites `read_at` with
the new current time (1 instead of 0), so the alert's observable state
changes. -/
theorem C9_counterexample :
    (Alert.mark_as_read 1 (Alert.mark_as_read 0 baseAlert)).read_at = some 1 ∧
    (Alert.mark_as_read 0 baseAlert).read_at = some 0 ∧
    Alert.mark_as_read 1 (Alert.mark_as_read 0 baseAlert)
      ≠ Alert.mark_as_read 0 baseAlert := by
  refine ⟨rfl, rfl, ?_⟩
  decide

/-- C9 (amended): calling `mark_as_read` again leaves `is_read` unchanged (it
stays `true`), but overwrites `read_at` with the later call's current time; the
full observable state is unchanged if and only if the second call is recorded
at the same instant as the first. -/
theorem C9_mark_as_read_second_call (a : Alert) (t1 t2 : Int) :
    (Alert.mark_as_read t2 (Alert.mark_as_read t1 a)).is_read
      = (Alert.mark_as_read t1 a).is_read ∧
    (Alert.mark_as_read t2 (Alert.mark_as_read t1 a)).read_at = some t2 ∧
    (Alert.mark_as_read t2 (Alert.mark_as_read t1 a) = Alert.mark_as_read t1 a ↔ t2 = t1) := by
  refine ⟨rfl, rfl, ?_, ?_⟩
  · intro h
    have h2 := congrArg Alert.read_at h
    simpa [Alert.mark_as_read] using h2
  · intro h
    subst h
    rfl

/-! ## C8 -/

theorem strContains_empty_hay (needle : String) :
    strContains "" needle = needle.data.isEmpty := rfl

theorem strContains_empty_lowerStr (kw : String) :
    strContains "" (lowerStr kw) = true ↔ kw = "" := by
  show (kw.data.map Char.toLower).isEmpty = true ↔ kw = ""
  rw [List.isEmpty_iff, List.map_eq_nil_iff]
  constructor
  · intro h
    cases kw with
    | mk d => simp_all
  · intro h
    subst h
    rfl

theorem strContains_empty_hash (h : String) :
    strContains "" ("#" ++ lowerStr h) = false := rfl

theorem guard_contains_iff (l : List String) (a : String) :
    (!l.isEmpty && l.contains a) = true ↔ a ∈ l := by
  cases l with
  | nil => simp
  | cons x t => simp

theorem guard_any_iff (l : List String) (f : String → Bool) :
    (!l.isEmpty && l.any f) = true ↔ ∃ x ∈ l, f x = true := by
  cases l with
  | nil => simp
  | cons x t => simp [List.any_eq_true]

/-- For an item with falsy text, content/account matching reduces to: tracked
account hit, or an empty-string entry among the tracked keywords (the Python
substring test `"" in ""` is true); hashtag entries can never hit because the
needle `"#" + entry` is non-empty. -/
theorem matchesCriteria_no_text (c : Campaign) (p : SocialMediaPost)
    (hc : p.content = none ∨ p.content = some "") :
    (matchesCriteria c p = true ↔
      (p.account_id ∈ c.tracked_accounts ∨ "" ∈ c.tracked_keywords)) := by
  have hcl : postContentLower p = "" := by
    rcases hc with h | h <;> simp [postContentLower, h]
  unfold matchesCriteria
  rw [hcl]
  cases hA : (!c.tracked_accounts.isEmpty && c.tracked_accounts.contains p.account_id) with
  | true =>
    exact iff_of_true (by simp [hA]) (Or.inl ((guard_contains_iff _ _).1 hA))
  | false =>
    cases hK : (!c.tracked_keywords.isEmpty &&
        c.tracked_keywords.any fun kw => strContains "" (lowerStr kw)) with
    | true =>
      refine iff_of_true (by simp [hA, hK]) (Or.inr ?_)
      obtain ⟨kw, hmem, hkw⟩ := (guard_any_iff _ _).1 hK
      have hkw0 : kw = "" := (strContains_empty_lowerStr kw).1 hkw
      exact hkw0 ▸ hmem
    | false =>
      have hH : (!c.tracked_hashtags.isEmpty &&
          c.tracked_hashtags.any fun h => strContains "" ("#" ++ lowerStr h)) = false := by
        cases ht : c.tracked_hashtags.any fun h => strContains "" ("#" ++ lowerStr h) with
        | false => simp [ht]
        | true =>
          obtain ⟨x, _, hx⟩ := List.any_eq_true.1 ht
          rw [strContains_empty_hash] at hx
          cases hx
      refine iff_of_false (by simp [hA, hK, hH]) ?_
      rintro (hmem | hmem)
      · have h1 : (!c.tracked_accounts.isEmpty &&
            c.tracked_accounts.contains p.account_id) = true :=
          (guard_contains_iff _ _).2 hmem
        rw [hA] at h1
        cases h1
      · have h2 : (!c.tracked_keywords.isEmpty &&
            c.tracked_keywords.any fun kw => strContains "" (lowerStr kw)) = true :=
          (guard_any_iff _ _).2 ⟨"", hmem, (strContains_empty_lowerStr "").2 rfl⟩
        rw [hK] at h2
        cases h2

/-- A campaign tracking only the empty-string keyword (window `[0, 5]`). -/
def campEmptyKeyword : Campaign :=
  { campPlanning with campaign_id := "camp_ek", tracked_keywords := [""] }

/-- A date-eligible post (instant 3) with no text from an untracked account. -/
def postNoText : SocialMediaPost :=
  { post_id := "pnt", account_id := "twitter:NotTracked", content := none,
    timestamp := TsRep.dt 3, likes := none, shares := none, comments_count := none,
    reach := none, sentiment_label := none, sentiment := none }

/-- C8 (counterexample): a date-eligible item with no text IS matched by a
campaign whose tracked accounts are empty, through the empty-string tracked
keyword (`"" in ""` holds in Python) — so a no-text item is not evaluated only
against the account criterion. -/
theorem C8_counterexample :
    get_posts_for_campaign (PyVal.val campEmptyKeyword) (PyVal.val [PyVal.val postNoText])
      = Except.ok [postNoText] ∧
    campEmptyKeyword.tracked_accounts = [] := by
  exact ⟨rfl, rfl⟩

/-- C8 (amended): an item whose text is absent (`None` or empty) matches a
campaign iff it is date-eligible and either its source account id is tracked or
the empty string occurs among the tracked keywords; the hashtag entries and all
non-empty keyword entries are indeed irrelevant for such an item. -/
theorem C8_no_text_matching (c : Campaign) (p : SocialMediaPost) (t : Int)
    (hc : p.content = none ∨ p.content = some "")
    (ht : normalizeTs p.timestamp = some t) :
    (postRelevant c p = true ↔
      (dateEligible c t = true ∧
        (p.account_id ∈ c.tracked_accounts ∨ "" ∈ c.tracked_keywords))) := by
  unfold postRelevant
  rw [ht]
  rw [Bool.and_eq_true]
  exact and_congr Iff.rfl (matchesCriteria_no_text c p hc)

/-- A campaign tracking an account, a keyword and a hashtag (window `[0, 5]`). -/
def campAccountOnly : Campaign :=
  { campPlanning with
    campaign_id := "camp_acc",
    tracked_accounts := ["twitter:BrandAlpha"],
    tracked_keywords := ["deal"], tracked_hashtags := ["promo"] }

/-- A date-eligible post with no text whose account is tracked. -/
def postNoTextTracked : SocialMediaPost :=
  { postNoText with post_id := "pnt2", account_id := "twitter:BrandAlpha" }

/-- Witness for C8: the amended theorem at a concrete no-text post whose
account is tracked; the matcher indeed accepts it. -/
theorem C8_witness :
    (postRelevant campAccountOnly postNoTextTracked = true ↔
      (dateEligible campAccountOnly 3 = true ∧
        (postNoTextTracked.account_id ∈ campAccountOnly.tracked_accounts ∨
          "" ∈ campAccountOnly.tracked_keywords))) ∧
    postRelevant campAccountOnly postNoTextTracked = true :=
  ⟨C8_no_text_matching campAccountOnly postNoTextTracked 3 (Or.inl rfl) rfl, by decide⟩

/-! ## C3 -/

/-- The engagement rate written by a non-empty aggregation pass, expressed
through the sums over the input posts. -/
theorem update_metrics_avg_nonempty (c : Campaign) (posts : List SocialMediaPost)
    (now : Int) (h : posts ≠ []) :
    (c.update_metrics posts now).avg_engagement_rate =
      (if 0 < (posts.map (fun p => p.reach.getD 0)).sum then
        round2 (((((posts.map (fun p => p.likes.getD 0)).sum : Nat) : ℚ) +
            (((posts.map (fun p => p.shares.getD 0)).sum : Nat) : ℚ) +
            (((posts.map (fun p => p.comments_count.getD 0)).sum : Nat) : ℚ)) /
          (((posts.map (fun p => p.reach.getD 0)).sum : Nat) : ℚ) * 100)
      else if 0 < posts.length then
        round2 (((((posts.map (fun p => p.likes.getD 0)).sum : Nat) : ℚ) +
            (((posts.map (fun p => p.shares.getD 0)).sum : Nat) : ℚ) +
            (((posts.map (fun p => p.comments_count.getD 0)).sum : Nat) : ℚ)) /
          ((posts.length : Nat) : ℚ))
      else 0) := by
  have hne : posts.isEmpty = false := by
    simp [List.isEmpty_iff, h]
  unfold Campaign.update_metrics
  simp only [hne, Bool.false_eq_true, if_false, update_status_logic_avg]

/-- C3: for a non-empty matched-item list, with `E` the summed engagement
(likes + shares + comments, absent fields as zero), `R` the summed reach and
`P` the post count, the aggregator sets `avgEngagementRate = round(E/R*100, 2)`
when `R > 0`, `round(E/P, 2)` when `R = 0` and `P > 0`, and `0.0` otherwise
(the last case is vacuous for non-empty input). -/
theorem C3_engagement_rate (c : Campaign) (posts : List SocialMediaPost) (now : Int)
    (hne : posts ≠ []) :
    (0 < (posts.map (fun p => p.reach.getD 0)).sum →
      (c.update_metrics posts now).avg_engagement_rate =
        round2 (((((posts.map (fun p => p.likes.getD 0)).sum : Nat) : ℚ) +
            (((posts.map (fun p => p.shares.getD 0)).sum : Nat) : ℚ) +
            (((posts.map (fun p => p.comments_count.getD 0)).sum : Nat) : ℚ)) /
          (((posts.map (fun p => p.reach.getD 0)).sum : Nat) : ℚ) * 100)) ∧
    ((posts.map (fun p => p.reach.getD 0)).sum = 0 → 0 < posts.length →
      (c.update_metrics posts now).avg_engagement_rate =
        round2 (((((posts.map (fun p => p.likes.getD 0)).sum : Nat) : ℚ) +
            (((posts.map (fun p => p.shares.getD 0)).sum : Nat) : ℚ) +
            (((posts.map (fun p => p.comments_count.getD 0)).sum : Nat) : ℚ)) /
          ((posts.length : Nat) : ℚ))) ∧
    (¬ 0 < (posts.map (fun p => p.reach.getD 0)).sum →
      ¬ ((posts.map (fun p => p.reach.getD 0)).sum = 0 ∧ 0 < posts.length) →
      (c.update_metrics posts now).avg_engagement_rate = 0) := by
  rw [update_metrics_avg_nonempty c posts now hne]
  refine ⟨?_, ?_, ?_⟩
  · intro hR
    rw [if_pos hR]
  · intro hR hP
    rw [if_neg (by omega), if_pos hP]
  · intro h1 h2
    exact absurd ⟨by omega, List.length_pos.2 hne⟩ h2

/-- Witness for C3: the spec's own end-to-end numbers — one post with
likes 10, shares 1, comments 1 and reach 100 yields
`round((10+1+1)/100*100, 2) = 12.0`. -/
theorem C3_witness :
    (campPlanning.update_metrics [post0] 10).avg_engagement_rate = 12 := by
  have h := (C3_engagement_rate campPlanning [post0] 10 (by simp)).1 (by decide)
  rw [h]
  norm_num [post0, round2]

/-! ## Dictionary and trend-loop lemmas -/

theorem dictGet_dictSet {β : Type} (l : List (String × β)) (k k' : String) (v : β) :
    dictGet (dictSet l k v) k' = if k = k' then some v else dictGet l k' := by
  induction l with
  | nil =>
    simp only [dictSet, dictGet]
  | cons a t ih =>
    obtain ⟨ka, va⟩ := a
    by_cases hka : ka = k
    · subst hka
      by_cases hk : ka = k'
      · subst hk
        simp [dictSet, dictGet]
      · simp [dictSet, dictGet, hk]
    · by_cases hk : k = k'
      · subst hk
        simp [dictSet, dictGet, hka, ih]
      · simp [dictSet, dictGet, hka, hk, ih]

theorem trendStep_falsy (uid : String) (now : Int) (st : List (String × TrendObs))
    (d : TrendData) (h : pyFalsy d.term = true) :
    trendStep uid now st d = ([], st) := by
  unfold trendStep
  cases hd : d.term with
  | none => rfl
  | some s =>
    rw [hd] at h
    have hs : s = "" := by simpa [pyFalsy] using h
    simp [hs]

theorem trendStep_state (uid : String) (now : Int) (st : List (String × TrendObs))
    (d : TrendData) (term : String) (hd : d.term = some term) (hterm : term ≠ "") :
    (trendStep uid now st d).2 = dictSet st term ⟨d.count.getD 0, now⟩ := by
  unfold trendStep
  rw [hd]
  simp only [hterm, if_false]
  cases hg : dictGet st term <;> simp [hg]

theorem trendStep_alerts_below (uid : String) (now : Int) (st : List (String × TrendObs))
    (d : TrendData) (hc : d.count.getD 0 < TREND_VOLUME_THRESHOLD) :
    (trendStep uid now st d).1 = [] := by
  unfold trendStep
  cases hd : d.term with
  | none => rfl
  | some s =>
    by_cases hse : s = ""
    · simp [hse]
    · simp only [hse, if_false]
      cases hg : dictGet st s with
      | none =>
        simp only [hg]
        rw [if_neg (by omega)]
      | some obs =>
        simp only [hg]
        rw [if_neg (by rintro ⟨_, h2⟩; omega)]

/-- The latest count an entry list carries for a given term (`none` when the
term never occurs). -/
def lastCountFor (term : String) : List TrendData → Option Int
  | [] => none
  | d :: ds =>
    match lastCountFor term ds with
    | some c => some c
    | none => if d.term = some term then some (d.count.getD 0) else none

theorem trendLoop_no_hit (uid : String) (now : Int) (term : String) (_hterm : term ≠ "") :
    ∀ (ds : List TrendData) (st : List (String × TrendObs)),
      lastCountFor term ds = none →
      dictGet (trendLoop uid now st ds).2 term = dictGet st term := by
  intro ds
  induction ds with
  | nil => intro st _; rfl
  | cons d t ih =>
    intro st h
    have h1 : lastCountFor term t = none := by
      unfold lastCountFor at h
      cases hl : lastCountFor term t
      · rfl
      · rw [hl] at h; simp at h
    have h2 : ¬ d.term = some term := by
      intro hd
      unfold lastCountFor at h
      rw [h1] at h
      simp only [hd, if_pos] at h
      simp at h
    show dictGet (trendLoop uid now (trendStep uid now st d).2 t).2 term = dictGet st term
    rw [ih _ h1]
    cases hd : d.term with
    | none =>
      show dictGet (trendStep uid now st d).2 term = dictGet st term
      unfold trendStep
      rw [hd]
    | some s =>
      have hs : s ≠ term := fun he => h2 (he ▸ hd)
      by_cases hse : s = ""
      · show dictGet (trendStep uid now st d).2 term = dictGet st term
        unfold trendStep
        rw [hd]
        simp [hse]
      · rw [trendStep_state uid now st d s hd hse, dictGet_dictSet]
        simp [hs]

theorem trendLoop_hit (uid : String) (now : Int) (term : String) (hterm : term ≠ "") :
    ∀ (ds : List TrendData) (st : List (String × TrendObs)) (cnt : Int),
      lastCountFor term ds = some cnt →
      dictGet (trendLoop uid now st ds).2 term = some ⟨cnt, now⟩ := by
  intro ds
  induction ds with
  | nil => intro st cnt h; cases h
  | cons d t ih =>
    intro st cnt h
    cases hl : lastCountFor term t with
    | some c =>
      have hc : c = cnt := by
        unfold lastCountFor at h
        rw [hl] at h
        exact Option.some.inj h
      subst hc
      exact ih _ c hl
    | none =>
      have hd : d.term = some term ∧ d.count.getD 0 = cnt := by
        unfold lastCountFor at h
        rw [hl] at h
        by_cases hdt : d.term = some term
        · rw [if_pos hdt] at h
          exact ⟨hdt, Option.some.inj h⟩
        · rw [if_neg hdt] at h
          cases h
      show dictGet (trendLoop uid now (trendStep uid now st d).2 t).2 term = some ⟨cnt, now⟩
      rw [trendLoop_no_hit uid now term hterm t _ hl]
      rw [trendStep_state uid now st d term hd.1 hterm, dictGet_dictSet]
      simp [hd.2]

theorem trendLoop_filter_falsy (uid : String) (now : Int) :
    ∀ (ds : List TrendData) (st : List (String × TrendObs)),
      trendLoop uid now st ds
        = trendLoop uid now st (ds.filter fun d => !(pyFalsy d.term)) := by
  intro ds
  induction ds with
  | nil => intro st; rfl
  | cons d t ih =>
    intro st
    cases hf : pyFalsy d.term with
    | true =>
      have hstep := trendStep_falsy uid now st d hf
      have hL : trendLoop uid now st (d :: t) = trendLoop uid now st t := by
        show ((trendStep uid now st d).1 ++ (trendLoop uid now (trendStep uid now st d).2 t).1,
              (trendLoop uid now (trendStep uid now st d).2 t).2)
            = trendLoop uid now st t
        rw [hstep]
        simp
      rw [hL, List.filter_cons]
      simp only [hf, Bool.not_true, if_false]
      exact ih st
    | false =>
      rw [List.filter_cons]
      simp only [hf, Bool.not_false, if_true]
      show ((trendStep uid now st d).1 ++ (trendLoop uid now (trendStep uid now st d).2 t).1,
            (trendLoop uid now (trendStep uid now st d).2 t).2)
          = ((trendStep uid now st d).1
              ++ (trendLoop uid now (trendStep uid now st d).2 (t.filter fun x => !(pyFalsy x.term))).1,
             (trendLoop uid now (trendStep uid now st d).2 (t.filter fun x => !(pyFalsy x.term))).2)
      rw [← ih]

/-! ## C5 -/

/-- A freshly constructed alerting service (empty tracker state). -/
def svcInit : AlertingService :=
  { user_id := "u", previous_campaign_metrics := [], seen_trends := [] }

/-- C5: with the default thresholds, the three-call sequence
`[("X",150)]`, `[("X",150)]`, `[("X",210)]` emits exactly one `info` alert,
then no alert, then exactly one `warning` alert, and after each call the
stored observation for `"X"` equals the latest count; moreover (last conjunct)
after any call the stored observation of any evaluated non-empty term equals
the latest count it was evaluated with, so the comparison baseline always
advances. -/
theorem C5_trend_tracker :
    ((check_trend_alerts svcInit 0 [⟨some "X", some 150⟩]).1 =
        [mkServiceAlert "u" "new_trend" "info" (some "X") (some "trend_term") 0] ∧
      (check_trend_alerts svcInit 0 [⟨some "X", some 150⟩]).2.seen_trends
        = [("X", ⟨150, 0⟩)]) ∧
    ((check_trend_alerts ⟨"u", [], [("X", ⟨150, 0⟩)]⟩ 1 [⟨some "X", some 150⟩]).1 = [] ∧
      (check_trend_alerts ⟨"u", [], [("X", ⟨150, 0⟩)]⟩ 1 [⟨some "X", some 150⟩]).2.seen_trends
        = [("X", ⟨150, 1⟩)]) ∧
    ((check_trend_alerts ⟨"u", [], [("X", ⟨150, 1⟩)]⟩ 2 [⟨some "X", some 210⟩]).1 =
        [mkServiceAlert "u" "trend_velocity_spike" "warning" (some "X") (some "trend_term") 2] ∧
      (check_trend_alerts ⟨"u", [], [("X", ⟨150, 1⟩)]⟩ 2 [⟨some "X", some 210⟩]).2.seen_trends
        = [("X", ⟨210, 2⟩)]) ∧
    (∀ (svc : AlertingService) (now : Int) (ds : List TrendData) (term : String) (cnt : Int),
      term ≠ "" → lastCountFor term ds = some cnt →
      dictGet (check_trend_alerts svc now ds).2.seen_trends term = some ⟨cnt, now⟩) := by
  refine ⟨by decide, by decide, by decide, ?_⟩
  intro svc now ds term cnt hterm hlast
  exact trendLoop_hit svc.user_id now term hterm ds svc.seen_trends cnt hlast

/-- Witness for C5: the baseline-advance conjunct applied at a concrete
below-threshold evaluation. -/
theorem C5_witness :
    dictGet (check_trend_alerts svcInit 5 [⟨some "Y", some 7⟩]).2.seen_trends "Y"
      = some ⟨7, 5⟩ :=
  C5_trend_tracker.2.2.2 svcInit 5 [⟨some "Y", some 7⟩] "Y" 7 (by decide) (by decide)

/-! ## C10 -/

/-- C10: an entry whose term is missing or empty is skipped entirely by the
trend tracker — evaluating a list equals evaluating the list with all falsy
entries filtered out (same alerts, same final state) — while an entry with a
non-empty term always has its observation created or updated to the latest
count, even when its count is below the volume threshold, in which case no
alert is emitted. -/
theorem C10_trend_entry_handling :
    (∀ (svc : AlertingService) (now : Int) (ds : List TrendData),
      check_trend_alerts svc now ds
        = check_trend_alerts svc now (ds.filter fun d => !(pyFalsy d.term))) ∧
    (∀ (svc : AlertingService) (now : Int) (d : TrendData) (term : String),
      d.term = some term → term ≠ "" →
      ((check_trend_alerts svc now [d]).2.seen_trends
          = dictSet svc.seen_trends term ⟨d.count.getD 0, now⟩ ∧
        (d.count.getD 0 < TREND_VOLUME_THRESHOLD →
          (check_trend_alerts svc now [d]).1 = []))) := by
  constructor
  · intro svc now ds
    unfold check_trend_alerts
    rw [← trendLoop_filter_falsy]
  · intro svc now d term hd hterm
    constructor
    · show (trendLoop svc.user_id now svc.seen_trends [d]).2
        = dictSet svc.seen_trends term ⟨d.count.getD 0, now⟩
      show (trendStep svc.user_id now svc.seen_trends d).2
        = dictSet svc.seen_trends term ⟨d.count.getD 0, now⟩
      exact trendStep_state svc.user_id now svc.seen_trends d term hd hterm
    · intro hc
      show (trendStep svc.user_id now svc.seen_trends d).1
          ++ (trendLoop svc.user_id now (trendStep svc.user_id now svc.seen_trends d).2 []).1
        = []
      rw [trendStep_alerts_below svc.user_id now svc.seen_trends d hc]
      rfl

/-- Witness for C10: both conjuncts at concrete inputs — a falsy entry mixed
into a list changes nothing, and a below-threshold entry updates the
observation without alerting. -/
theorem C10_witness :
    check_trend_alerts svcInit 0 [⟨none, some 500⟩, ⟨some "Z", some 3⟩]
      = check_trend_alerts svcInit 0
          ([⟨none, some 500⟩, ⟨some "Z", some 3⟩].filter fun d => !(pyFalsy d.term)) ∧
    (check_trend_alerts svcInit 0 [⟨some "Z", some 3⟩]).2.seen_trends
      = dictSet svcInit.seen_trends "Z" ⟨3, 0⟩ ∧
    (check_trend_alerts svcInit 0 [⟨some "Z", some 3⟩]).1 = [] := by
  refine ⟨C10_trend_entry_handling.1 svcInit 0 _, ?_, ?_⟩
  · exact (C10_trend_entry_handling.2 svcInit 0 ⟨some "Z", some 3⟩ "Z" rfl (by decide)).1
  · exact (C10_trend_entry_handling.2 svcInit 0 ⟨some "Z", some 3⟩ "Z" rfl (by decide)).2
      (by decide)

/-! ## C4 -/

theorem check_campaign_single (svc : AlertingService) (now : Int) (c : Campaign) :
    check_campaign_performance_alerts svc now [c]
      = ((campaignPerfStep svc.user_id now svc.previous_campaign_metrics c).1,
         { svc with previous_campaign_metrics :=
             (campaignPerfStep svc.user_id now svc.previous_campaign_metrics c).2 }) := by
  simp [check_campaign_performance_alerts, campaignPerfLoop]

theorem ifChain_length (q : ℚ) (a b : Alert) :
    (if CAMPAIGN_ENGAGEMENT_SPIKE_PERCENTAGE ≤ q then [a]
     else if q ≤ CAMPAIGN_ENGAGEMENT_DROP_PERCENTAGE then [b] else []).length ≤ 1 := by
  split
  · simp
  · split <;> simp

theorem campaignPerfStep_length (uid : String) (now : Int)
    (st : List (String × CampMetrics)) (c : Campaign) :
    (campaignPerfStep uid now st c).1.length ≤ 1 := by
  unfold campaignPerfStep
  split
  · cases hg : dictGet st c.campaign_id with
    | none => simp [hg]
    | some m =>
      simp only [hg]
      exact ifChain_length _ _ _
  · simp

/-- The percentage-change computation of the campaign tracker (lines 107-113),
pulled out for reasoning. -/
def pctChange (prev cur : ℚ) : ℚ :=
  if prev ≠ 0 then (cur - prev) / |prev| * 100
  else if 0 < cur then CAMPAIGN_ENGAGEMENT_SPIKE_PERCENTAGE + 1
  else 0

theorem campaignPerfStep_active (uid : String) (now : Int)
    (st : List (String × CampMetrics)) (c : Campaign) (hact : c.status = "Active") :
    campaignPerfStep uid now st c
      = ((match dictGet st c.campaign_id with
          | none => ([] : List Alert)
          | some m =>
            if CAMPAIGN_ENGAGEMENT_SPIKE_PERCENTAGE ≤
                pctChange m.avg_engagement_rate c.avg_engagement_rate then
              [mkServiceAlert uid "campaign_performance_change" "warning"
                (some c.campaign_id) (some "campaign") now]
            else if pctChange m.avg_engagement_rate c.avg_engagement_rate ≤
                CAMPAIGN_ENGAGEMENT_DROP_PERCENTAGE then
              [mkServiceAlert uid "campaign_performance_change" "critical"
                (some c.campaign_id) (some "campaign") now]
            else []),
         dictSet st c.campaign_id ⟨c.avg_engagement_rate, c.total_likes, now⟩) := by
  unfold campaignPerfStep pctChange
  rw [hact]
  simp

/-- C4: for an Active campaign evaluated by the campaign signal tracker:
at most one alert is emitted in one pass; with no prior observation the rate is
recorded and nothing is emitted; with a prior observation of rate `prev ≠ 0`
and percentage change `pct = (cur - prev)/|prev|*100`, exactly one `warning`
spike alert is emitted when `pct ≥ 30` and exactly one `critical` drop alert
when `pct ≤ -20`; `prev = 0` with `cur > 0` counts as a spike, and
`prev = cur = 0` emits nothing. -/
theorem C4_campaign_tracker (svc : AlertingService) (c : Campaign) (now : Int)
    (hact : c.status = "Active") :
    (check_campaign_performance_alerts svc now [c]).1.length ≤ 1 ∧
    (dictGet svc.previous_campaign_metrics c.campaign_id = none →
      check_campaign_performance_alerts svc now [c]
        = ([], { svc with previous_campaign_metrics :=
                            dictSet svc.previous_campaign_metrics c.campaign_id
                              ⟨c.avg_engagement_rate, c.total_likes, now⟩ })) ∧
    (∀ m : CampMetrics, dictGet svc.previous_campaign_metrics c.campaign_id = some m →
      ((m.avg_engagement_rate ≠ 0 →
        ((CAMPAIGN_ENGAGEMENT_SPIKE_PERCENTAGE ≤
            (c.avg_engagement_rate - m.avg_engagement_rate) / |m.avg_engagement_rate| * 100 →
          (check_campaign_performance_alerts svc now [c]).1
            = [mkServiceAlert svc.user_id "campaign_performance_change" "warning"
                (some c.campaign_id) (some "campaign") now]) ∧
         ((c.avg_engagement_rate - m.avg_engagement_rate) / |m.avg_engagement_rate| * 100
            ≤ CAMPAIGN_ENGAGEMENT_DROP_PERCENTAGE →
          (check_campaign_performance_alerts svc now [c]).1
            = [mkServiceAlert svc.user_id "campaign_performance_change" "critical"
                (some c.campaign_id) (some "campaign") now]))) ∧
       (m.avg_engagement_rate = 0 → 0 < c.avg_engagement_rate →
        (check_campaign_performance_alerts svc now [c]).1
          = [mkServiceAlert svc.user_id "campaign_performance_change" "warning"
              (some c.campaign_id) (some "campaign") now]) ∧
       (m.avg_engagement_rate = 0 → c.avg_engagement_rate = 0 →
        (check_campaign_performance_alerts svc now [c]).1 = []))) := by
  have hsingle := check_campaign_single svc now c
  refine ⟨?_, ?_, ?_⟩
  · rw [hsingle]
    exact campaignPerfStep_length _ _ _ _
  · intro hg
    rw [hsingle]
    unfold campaignPerfStep
    rw [hact]
    simp [hg]
  · intro m hg
    have halerts : (check_campaign_performance_alerts svc now [c]).1
        = (if CAMPAIGN_ENGAGEMENT_SPIKE_PERCENTAGE ≤
              pctChange m.avg_engagement_rate c.avg_engagement_rate then
            [mkServiceAlert svc.user_id "campaign_performance_change" "warning"
              (some c.campaign_id) (some "campaign") now]
          else if pctChange m.avg_engagement_rate c.avg_engagement_rate ≤
              CAMPAIGN_ENGAGEMENT_DROP_PERCENTAGE then
            [mkServiceAlert svc.user_id "campaign_performance_change" "critical"
              (some c.campaign_id) (some "campaign") now]
          else []) := by
      rw [hsingle, campaignPerfStep_active _ _ _ _ hact]
      simp only [hg]
    refine ⟨?_, ?_, ?_⟩
    · intro hprev
      have hpc : pctChange m.avg_engagement_rate c.avg_engagement_rate
          = (c.avg_engagement_rate - m.avg_engagement_rate) / |m.avg_engagement_rate| * 100 := by
        unfold pctChange
        rw [if_pos hprev]
      constructor
      · intro hpct
        rw [halerts, hpc, if_pos hpct]
      · intro hpct
        have hlt : CAMPAIGN_ENGAGEMENT_DROP_PERCENTAGE
            < CAMPAIGN_ENGAGEMENT_SPIKE_PERCENTAGE := by
          norm_num [CAMPAIGN_ENGAGEMENT_DROP_PERCENTAGE, CAMPAIGN_ENGAGEMENT_SPIKE_PERCENTAGE]
        rw [halerts, hpc, if_neg (by intro hge; linarith), if_pos hpct]
    · intro hprev hcur
      have hpc : pctChange m.avg_engagement_rate c.avg_engagement_rate
          = CAMPAIGN_ENGAGEMENT_SPIKE_PERCENTAGE + 1 := by
        unfold pctChange
        rw [if_neg (by simp [hprev]), if_pos hcur]
      rw [halerts, hpc, if_pos (by norm_num)]
    · intro hprev hcur
      have hpc : pctChange m.avg_engagement_rate c.avg_engagement_rate = 0 := by
        unfold pctChange
        rw [if_neg (by simp [hprev]), if_neg (by simp [hcur])]
      rw [halerts, hpc,
        if_neg (by norm_num [CAMPAIGN_ENGAGEMENT_SPIKE_PERCENTAGE]),
        if_neg (by norm_num [CAMPAIGN_ENGAGEMENT_DROP_PERCENTAGE])]

/-- An Active campaign whose current engagement rate is 1.5. -/
def campActiveDrop : Campaign :=
  { campPlanning with
    campaign_id := "campA", status := "Active", avg_engagement_rate := 3 / 2 }

/-- A service remembering rate 2.5 for `campA`. -/
def svcPrev25 : AlertingService :=
  { user_id := "u", previous_campaign_metrics := [("campA", ⟨5 / 2, 0, 0⟩)],
    seen_trends := [] }

/-- An Active campaign whose current engagement rate is 3.0. -/
def campActiveSpike : Campaign :=
  { campPlanning with
    campaign_id := "campB", status := "Active", avg_engagement_rate := 3 }

/-- A service remembering rate 0.0 for `campB`. -/
def svcPrev0 : AlertingService :=
  { user_id := "u", previous_campaign_metrics := [("campB", ⟨0, 0, 0⟩)],
    seen_trends := [] }

/-- Witness for C4: the spec's two example scenarios — previous 2.5, current
1.5 (pct = −40%) yields exactly one `critical` drop alert; previous 0.0,
current 3.0 yields exactly one `warning` spike alert. -/
theorem C4_witness :
    (check_campaign_performance_alerts svcPrev25 7 [campActiveDrop]).1
      = [mkServiceAlert "u" "campaign_performance_change" "critical" (some "campA")
          (some "campaign") 7] ∧
    (check_campaign_performance_alerts svcPrev0 8 [campActiveSpike]).1
      = [mkServiceAlert "u" "campaign_performance_change" "warning" (some "campB")
          (some "campaign") 8] := by
  constructor
  · exact (((C4_campaign_tracker svcPrev25 campActiveDrop 7 rfl).2.2 ⟨5 / 2, 0, 0⟩
      rfl).1 (by norm_num)).2
      (by
        have habs : |(5 : ℚ) / 2| = 5 / 2 := abs_of_pos (by norm_num)
        norm_num [campActiveDrop, campPlanning, CAMPAIGN_ENGAGEMENT_DROP_PERCENTAGE, habs])
  · exact ((C4_campaign_tracker svcPrev0 campActiveSpike 8 rfl).2.2 ⟨0, 0, 0⟩
      rfl).2.1 rfl (by norm_num [campActiveSpike, campPlanning])

/-! ## C6 -/

theorem check_sentiment_reduce (uid : String) (now : Int)
    (classify : String → Option String) (c : Campaign) (posts : List SocialMediaPost)
    (hge : NEGATIVE_SENTIMENT_POST_COUNT ≤ posts.length) :
    check_sentiment_alerts uid now (some classify) c posts
      = (if 0 < (posts.filter (postNegative classify)).length then
          (if NEGATIVE_SENTIMENT_THRESHOLD * 100 ≤
              ((posts.filter (postNegative classify)).length : ℚ) / (posts.length : ℚ) * 100 then
            [mkServiceAlert uid "negative_sentiment_surge" "critical" (some c.campaign_id)
              (some "campaign") now]
          else [])
        else []) := by
  have hlen0 : 0 < posts.length := by
    have : 0 < NEGATIVE_SENTIMENT_POST_COUNT := by norm_num [NEGATIVE_SENTIMENT_POST_COUNT]
    omega
  have hne : posts.isEmpty = false := by
    simp [List.isEmpty_iff]
    exact List.length_pos.1 hlen0
  have hnlt : ¬ posts.length < NEGATIVE_SENTIMENT_POST_COUNT := by omega
  unfold check_sentiment_alerts
  simp [hne, hnlt]

/-- C6: with the classifier available, a call of the sentiment detector with
fewer than MIN_SAMPLE (10) items returns no alert; with at least MIN_SAMPLE
items it emits exactly one `critical` alert when the negative fraction reaches
the 0.6 threshold and no alert otherwise.  `negativeCount` is the number of
items resolved to the label `"negative"` (as the code resolves labels). -/
theorem C6_sentiment_detector (uid : String) (now : Int)
    (classify : String → Option String) (c : Campaign) (posts : List SocialMediaPost) :
    (posts.length < NEGATIVE_SENTIMENT_POST_COUNT →
      check_sentiment_alerts uid now (some classify) c posts = []) ∧
    (NEGATIVE_SENTIMENT_POST_COUNT ≤ posts.length →
      ((NEGATIVE_SENTIMENT_THRESHOLD ≤
          ((posts.filter (postNegative classify)).length : ℚ) / (posts.length : ℚ) →
        check_sentiment_alerts uid now (some classify) c posts
          = [mkServiceAlert uid "negative_sentiment_surge" "critical" (some c.campaign_id)
              (some "campaign") now]) ∧
       (((posts.filter (postNegative classify)).length : ℚ) / (posts.length : ℚ)
            < NEGATIVE_SENTIMENT_THRESHOLD →
        check_sentiment_alerts uid now (some classify) c posts = []))) := by
  constructor
  · intro hlt
    unfold check_sentiment_alerts
    simp [hlt]
  · intro hge
    have hlen0 : 0 < posts.length := by
      have : 0 < NEGATIVE_SENTIMENT_POST_COUNT := by norm_num [NEGATIVE_SENTIMENT_POST_COUNT]
      omega
    have hlenQ : (0 : ℚ) < (posts.length : ℚ) := by exact_mod_cast hlen0
    rw [check_sentiment_reduce uid now classify c posts hge]
    constructor
    · intro hfrac
      have hNpos : 0 < (posts.filter (postNegative classify)).length := by
        by_contra h0
        have hz : (posts.filter (postNegative classify)).length = 0 := by omega
        rw [hz] at hfrac
        norm_num [NEGATIVE_SENTIMENT_THRESHOLD] at hfrac
      rw [if_pos hNpos, if_pos (by
        have := mul_le_mul_of_nonneg_right hfrac (by norm_num : (0:ℚ) ≤ 100)
        linarith)]
    · intro hfrac
      by_cases hN : 0 < (posts.filter (postNegative classify)).length
      · rw [if_pos hN, if_neg (by
          intro hle
          have := (mul_le_mul_right (by norm_num : (0:ℚ) < 100)).1 hle
          linarith)]
      · rw [if_neg hN]

/-- A content-bearing post pre-labeled negative. -/
def postNeg : SocialMediaPost :=
  { post0 with post_id := "pn", sentiment_label := some "negative" }

/-- A content-bearing post pre-labeled positive. -/
def postPos : SocialMediaPost :=
  { post0 with post_id := "pp", sentiment_label := some "positive" }

/-- Witness for C6: the spec's example numbers — 12 items with 5 negative
(41.7 % < 60 %) yield no alert; 12 items with 8 negative (66.7 % ≥ 60 %) yield
exactly one `critical` alert. -/
theorem C6_witness :
    check_sentiment_alerts "u" 0 (some fun _ => none) campPlanning
        (List.replicate 5 postNeg ++ List.replicate 7 postPos) = [] ∧
    check_sentiment_alerts "u" 0 (some fun _ => none) campPlanning
        (List.replicate 8 postNeg ++ List.replicate 4 postPos)
      = [mkServiceAlert "u" "negative_sentiment_surge" "critical" (some "camp1")
          (some "campaign") 0] := by
  constructor
  · exact ((C6_sentiment_detector "u" 0 (fun _ => none) campPlanning
      (List.replicate 5 postNeg ++ List.replicate 7 postPos)).2 (by decide)).2 (by
        have h1 : (List.filter (postNegative fun _ => none)
            (List.replicate 5 postNeg ++ List.replicate 7 postPos)).length = 5 := by decide
        have h2 : (List.replicate 5 postNeg ++ List.replicate 7 postPos).length = 12 := by
          decide
        rw [h1, h2]
        norm_num [NEGATIVE_SENTIMENT_THRESHOLD])
  · exact ((C6_sentiment_detector "u" 0 (fun _ => none) campPlanning
      (List.replicate 8 postNeg ++ List.replicate 4 postPos)).2 (by decide)).1 (by
        have h1 : (List.filter (postNegative fun _ => none)
            (List.replicate 8 postNeg ++ List.replicate 4 postPos)).length = 8 := by decide
        have h2 : (List.replicate 8 postNeg ++ List.replicate 4 postPos).length = 12 := by
          decide
        rw [h1, h2]
        norm_num [NEGATIVE_SENTIMENT_THRESHOLD])

end SocialSense
